import Mathlib

/-!
# i.MX PCIe endpoint driver: the probe routine

A shallow embedding of `imx_pcie_ep_probe`
(`drivers/pci/controller/dwc/pci-imx6-ep.c`) and the properties of its
register programming, error unwinding and device-tree node selection.

The routine is straight-line code over kernel services.  The outcome of each
service (allocation, device enable, MSI enable, the device tree, the initial
configuration space) is an input, collected in `probe_env`; the effects of the
routine are the returned code, the ordered trace of the calls it makes and the
final contents of the configuration space.
-/

namespace Imx6Ep

/-! ## Constants taken from kernel headers -/

/-- Modelled from the spec: the out-of-memory errno of `errno-base.h`, which is
not part of the driver file. -/
def ENOMEM : Int := 12

/-- Modelled from the spec: the no-such-device errno of `errno-base.h`. -/
def ENODEV : Int := 19

/-- Modelled from the spec: the invalid-argument errno of `errno-base.h`. -/
def EINVAL : Int := 22

/-- Modelled from the spec: the errno with which a string-list read past the
last entry fails (`errno.h`). -/
def ENODATA : Int := 61

/-- Modelled from the spec: the MSI enable flag of `pci_regs.h`; shifted left by
16 it is bit 16 of the dword at the MSI capability offset. -/
def PCI_MSI_FLAGS_ENABLE : Nat := 0x0001

/-! ## Data model -/

/-- The two fields of `struct resource` that the driver reads. -/
structure resource where
  start : Nat
  end_ : Nat

/-- A device-tree node, as far as the driver looks at it: its `device_type`,
its status, its properties readable as a `u32` (`none` when the read fails: the
property is absent, has no value, or is too short), its string-list
properties (`none` when absent) and the outcome of translating its `reg`
entry of a given index (the return code, and the resource filled in). -/
structure device_node where
  device_type : String
  available : Bool
  u32_props : String → Option Nat
  string_props : String → Option (List String)
  reg : Nat → Int × resource

/-- The two buses the driver addresses: `pdev->bus`, on which the endpoint
sits, and `pdev->bus->parent`, the side of the root complex. -/
inductive pci_bus where
  | bus
  | parent
  deriving DecidableEq, Repr

/-- The three `dev_err` sites of the probe routine. -/
inductive err_msg where
  | enable_msi
  | find_config
  | get_cfg_res
  deriving DecidableEq, Repr

/-- One call with an effect outside the routine, with the arguments and, for a
call that can fail, the outcome. -/
inductive event where
  | devm_kzalloc (ok : Bool)
  | pci_enable_device (ret : Int)
  | pci_set_master
  | pci_set_drvdata
  | pci_enable_msi (ret : Int)
  | dev_err (m : err_msg)
  | pr_info (msi_addr local_addr : Nat)
  | cfg_write (b : pci_bus) (devfn where_ val : Nat)
  | cfg_read (b : pci_bus) (devfn where_ : Nat)
  | pci_disable_msi
  | pci_disable_device
  | kfree
  deriving DecidableEq, Repr

/-- Configuration space: the dword at a bus, device function and offset. -/
abbrev config_space := pci_bus → Nat → Nat → Nat

/-- What the routine changes: the calls made so far, in order, and the
configuration space. -/
structure kstate where
  trace : List event
  cfg : config_space

/-- Everything the routine's behaviour depends on. -/
structure probe_env where
  /-- whether `devm_kzalloc` returns a non-null record -/
  kzalloc_ok : Bool
  /-- the return value of `pci_enable_device` -/
  enable_device_ret : Int
  /-- the return value of `pci_enable_msi` -/
  enable_msi_ret : Int
  /-- the device tree, in the order in which `of_find_node_by_type` walks it -/
  allnodes : List device_node
  /-- whether `resource_size_t` has 64 bits (it has 32 otherwise) -/
  phys_addr_t_64bit : Bool
  /-- the content of `local_addr` before it is assigned -/
  local_addr_uninit : Nat
  /-- the configuration space before the routine runs -/
  cfg : config_space

/-! ## Kernel services -/

/-- Append a call to the trace. -/
def kstate.log (s : kstate) (ev : event) : kstate :=
  { s with trace := s.trace ++ [ev] }

/-- Modelled from the spec: `pci_bus_write_config_dword`, which stores a dword
at an offset of the configuration space of a device function on a bus. -/
def pci_bus_write_config_dword (s : kstate) (b : pci_bus) (devfn where_ val : Nat) :
    kstate :=
  { trace := s.trace ++ [event.cfg_write b devfn where_ val]
    cfg := fun b2 d2 w2 => if b2 = b ∧ d2 = devfn ∧ w2 = where_ then val else s.cfg b2 d2 w2 }

/-- Modelled from the spec: `pci_bus_read_config_dword`, which yields the dword
stored at an offset. -/
def pci_bus_read_config_dword (s : kstate) (b : pci_bus) (devfn where_ : Nat) :
    kstate × Nat :=
  (s.log (event.cfg_read b devfn where_), s.cfg b devfn where_)

/-- Modelled from the spec: the successive results of `of_find_node_by_type(np,
type)` started from a null `np`, that is the nodes of that type in scan
order. -/
def of_find_node_by_type (allnodes : List device_node) (type : String) :
    List device_node :=
  allnodes.filter (fun n => n.device_type = type)

/-- Modelled from the spec: `of_device_is_available`. -/
def of_device_is_available (np : device_node) : Bool :=
  np.available

/-- Modelled from the spec: `of_property_read_u32`.  The result is the return
code and the content of the output variable after the call: zero and the value
read on success; a negative code, the variable untouched, on failure, which is
what happens on a null node handle too. -/
def of_property_read_u32 (np : Option device_node) (propname : String) (out : Nat) :
    Int × Nat :=
  match np with
  | none => (-EINVAL, out)
  | some n =>
    match n.u32_props propname with
    | none => (-EINVAL, out)
    | some v => (0, v)

/-- Modelled from the spec: `of_property_read_string_index`: zero and the string
of that index on success; a negative code on a null node handle, an absent
property, or an index past the last string. -/
def of_property_read_string_index (np : Option device_node) (propname : String)
    (index : Nat) : Int × String :=
  match np with
  | none => (-EINVAL, "")
  | some n =>
    match n.string_props propname with
    | none => (-EINVAL, "")
    | some l =>
      match l[index]? with
      | none => (-ENODATA, "")
      | some s => (0, s)

/-- Modelled from the spec: `of_property_count_strings`, not called by the
driver; the number of strings that `of_property_read_string_index` can
read. -/
def of_property_count_strings (np : Option device_node) (propname : String) : Nat :=
  match np with
  | none => 0
  | some n =>
    match n.string_props propname with
    | none => 0
    | some l => l.length

/-- Modelled from the spec: `of_address_to_resource`: the return code (zero on
success) and the resource filled in. -/
def of_address_to_resource (np : Option device_node) (index : Nat) : Int × resource :=
  match np with
  | none => (-EINVAL, ⟨0, 0⟩)
  | some n => n.reg index

/-- Modelled from the spec: `strcmp` on the characters of two strings: zero when
they are equal, otherwise the sign of the first difference. -/
def strcmp_chars : List Char → List Char → Int
  | [], [] => 0
  | [], _ :: _ => -1
  | _ :: _, [] => 1
  | a :: as, b :: bs =>
    if a = b then strcmp_chars as bs else if a.toNat < b.toNat then -1 else 1

/-- Modelled from the spec: `strcmp`. -/
def strcmp (a b : String) : Int :=
  strcmp_chars a.data b.data

/-- The number of bits of `resource_size_t`. -/
def resource_bits (e : probe_env) : Nat :=
  if e.phys_addr_t_64bit then 64 else 32

/-- Modelled from the spec: `resource_size`, that is `end - start + 1` in
`resource_size_t` arithmetic of `w` bits. -/
def resource_size (w : Nat) (res : resource) : Nat :=
  (res.end_ % 2 ^ w + 2 ^ w - res.start % 2 ^ w + 1) % 2 ^ w

/-! ## The probe routine -/

/-- The label `out`: free the private record and return `ret`. -/
def out (ret : Int) (s : kstate) : Int × kstate :=
  (ret, s.log event.kfree)

/-- The label `err_pci_unmap_mmio`: disable the device, then fall through. -/
def err_pci_unmap_mmio (ret : Int) (s : kstate) : Int × kstate :=
  out ret (s.log event.pci_disable_device)

/-- The label `err_pci_disable_msi`: disable MSI, then fall through. -/
def err_pci_disable_msi (ret : Int) (s : kstate) : Int × kstate :=
  err_pci_unmap_mmio ret (s.log event.pci_disable_msi)

/-- The node-selection loop, run over the successive results of
`of_find_node_by_type`; the result is `np` when the loop is left (`none` for a
null handle). -/
def select_loop : List device_node → Option device_node
  | [] => none
  | np :: rest =>
    let hard_wired := 0
    if !of_device_is_available np then select_loop rest
    else
      let r := of_property_read_u32 (some np) "hard-wired" hard_wired
      if r.1 ≠ 0 then
        if r.2 = 0 then some np else select_loop rest
      else select_loop rest

/-- The `reg-names` loop from a given `index`; the result is `index` and `found`
when the loop is left.  The first argument bounds the number of iterations still
to run; the loop is started with one more than the number of strings, a bound
it never reaches (`reg_names_loop_spec`). -/
def reg_names_loop (np : Option device_node) : Nat → Nat → Nat × Bool
  | 0, index => (index, false)
  | fuel + 1, index =>
    let r := of_property_read_string_index np "reg-names" index
    if r.1 ≠ 0 then (index, false)
    else if strcmp "config" r.2 ≠ 0 then reg_names_loop np fuel (index + 1)
    else (index, true)

/-- The probe routine: the code returned and the state it leaves. -/
def imx_pcie_ep_probe (e : probe_env) : Int × kstate :=
  let s : kstate := ⟨[], e.cfg⟩
  let s := s.log (event.devm_kzalloc e.kzalloc_ok)
  if !e.kzalloc_ok then (-ENOMEM, s)
  else
    let s := s.log (event.pci_enable_device e.enable_device_ret)
    if e.enable_device_ret ≠ 0 then out (-ENODEV) s
    else
      let s := s.log event.pci_set_master
      let s := s.log event.pci_set_drvdata
      let ret := e.enable_msi_ret
      let s := s.log (event.pci_enable_msi ret)
      if ret < 0 then err_pci_unmap_mmio ret (s.log (event.dev_err err_msg.enable_msi))
      else
        let np := select_loop (of_find_node_by_type e.allnodes "pci")
        let r := of_property_read_u32 np "local-addr" e.local_addr_uninit
        let local_addr := if r.1 ≠ 0 then 0 else r.2
        let l := reg_names_loop np (of_property_count_strings np "reg-names" + 1) 0
        let index := l.1
        let found := l.2
        if !found then
          err_pci_disable_msi (-EINVAL) (s.log (event.dev_err err_msg.find_config))
        else
          let a := of_address_to_resource np index
          if a.1 ≠ 0 then
            err_pci_disable_msi (-EINVAL) (s.log (event.dev_err err_msg.get_cfg_res))
          else
            let cfg_res := a.2
            let w := resource_bits e
            let msi_addr := ((cfg_res.start % 2 ^ w + resource_size w cfg_res) % 2 ^ w) % 2 ^ 32
            let s := s.log (event.pr_info msi_addr local_addr)
            let s := pci_bus_write_config_dword s pci_bus.bus 0 0x54 msi_addr
            let msi_addr :=
              if local_addr ≠ 0 then (msi_addr &&& 0xFFFFFFF) ||| (local_addr &&& 0xF0000000)
              else msi_addr
            let s := pci_bus_write_config_dword s pci_bus.parent 0 0x820 msi_addr
            let rd := pci_bus_read_config_dword s pci_bus.parent 0 0x50
            let s := rd.1
            let ret := rd.2 ||| (PCI_MSI_FLAGS_ENABLE <<< 16)
            let s := pci_bus_write_config_dword s pci_bus.parent 0 0x50 ret
            let s := pci_bus_write_config_dword s pci_bus.parent 0 0x828 0x1
            let s := pci_bus_write_config_dword s pci_bus.parent 0 0x82C 0xFFFFFFFE
            (0, s)

/-! ## Notions used to state the properties -/

/-- The node on which the routine works after the node-selection loop. -/
def selected_node (e : probe_env) : Option device_node :=
  select_loop (of_find_node_by_type e.allnodes "pci")

/-- The strings of the `reg-names` property behind a node handle; none for a
null handle or an absent property. -/
def reg_names (np : Option device_node) : List String :=
  match np with
  | none => []
  | some n => (n.string_props "reg-names").getD []

/-- Index `i` is the least one at which the list holds "config". -/
def least_config_index (names : List String) (i : Nat) : Prop :=
  names[i]? = some "config" ∧ ∀ j, j < i → names[j]? ≠ some "config"

/-- The accesses to configuration space among the calls of a trace. -/
def cfg_accesses (t : List event) : List event :=
  t.filter (fun ev =>
    match ev with
    | event.cfg_write _ _ _ _ => true
    | event.cfg_read _ _ _ => true
    | _ => false)

/-- The writes to configuration space among the calls of a trace. -/
def cfg_writes (t : List event) : List event :=
  t.filter (fun ev =>
    match ev with
    | event.cfg_write _ _ _ _ => true
    | _ => false)

/-- The values written to one register, in the order of the writes. -/
def written (t : List event) (b : pci_bus) (devfn where_ : Nat) : List Nat :=
  t.filterMap (fun ev =>
    match ev with
    | event.cfg_write b2 d2 w2 v => if b2 = b ∧ d2 = devfn ∧ w2 = where_ then some v else none
    | _ => none)

/-- The resources the routine acquires. -/
inductive acquirable where
  | record
  | device
  | msi
  deriving DecidableEq, Repr

/-- The resources acquired by the calls of a trace, in the order of
acquisition: a call that failed acquires nothing. -/
def acquired (t : List event) : List acquirable :=
  t.filterMap (fun ev =>
    match ev with
    | event.devm_kzalloc ok => if ok then some acquirable.record else none
    | event.pci_enable_device ret => if ret = 0 then some acquirable.device else none
    | event.pci_enable_msi ret => if ret < 0 then none else some acquirable.msi
    | _ => none)

/-- The resources released by the calls of a trace, in the order of release. -/
def released (t : List event) : List acquirable :=
  t.filterMap (fun ev =>
    match ev with
    | event.kfree => some acquirable.record
    | event.pci_disable_device => some acquirable.device
    | event.pci_disable_msi => some acquirable.msi
    | _ => none)

/-- The call that releases a resource. -/
def release_call : acquirable → event
  | acquirable.record => event.kfree
  | acquirable.device => event.pci_disable_device
  | acquirable.msi => event.pci_disable_msi

/-- The outcome of the `reg-names` loop as the routine starts it. -/
def config_search (e : probe_env) : Nat × Bool :=
  reg_names_loop (selected_node e)
    (of_property_count_strings (selected_node e) "reg-names" + 1) 0

/-- The value that `local_addr` holds after the read of `local-addr`: the value
of the property of the selected node, zero when the read fails. -/
def local_addr_value (e : probe_env) : Nat :=
  match selected_node e with
  | none => 0
  | some n => (n.u32_props "local-addr").getD 0

/-- The resource that the routine resolves: the `reg` entry of the selected
node at the index the search ends with. -/
def config_resource (e : probe_env) : resource :=
  (of_address_to_resource (selected_node e) (config_search e).1).2

/-- Base plus size of the resolved resource, as a 32-bit value. -/
def msi_base (e : probe_env) : Nat :=
  ((config_resource e).start + resource_size (resource_bits e) (config_resource e)) % 2 ^ 32

/-- The node with the value of a readable `hard-wired` replaced by its image
under `f`; a node on which the read fails is left as it is. -/
def with_hard_wired (f : Nat → Nat) (n : device_node) : device_node :=
  { n with
    u32_props := fun p => if p = "hard-wired" then (n.u32_props p).map f else n.u32_props p }

/-! ## Sample device trees -/

/-- A port that is disabled in the device tree. -/
def node_disabled : device_node :=
  { device_type := "pci", available := false,
    u32_props := fun _ => none,
    string_props := fun p => if p = "reg-names" then some ["dbi", "config"] else none,
    reg := fun i => if i = 1 then (0, ⟨0x08000000, 0x0807ffff⟩) else (-22, ⟨0, 0⟩) }

/-- A port marked `hard-wired = <1>`. -/
def node_hard_wired : device_node :=
  { device_type := "pci", available := true,
    u32_props := fun p => if p = "hard-wired" then some 1 else none,
    string_props := fun p => if p = "reg-names" then some ["dbi", "config"] else none,
    reg := fun i => if i = 1 then (0, ⟨0x08000000, 0x0807ffff⟩) else (-22, ⟨0, 0⟩) }

/-- A port marked `hard-wired = <0>`. -/
def node_hard_wired_zero : device_node :=
  { device_type := "pci", available := true,
    u32_props := fun p => if p = "hard-wired" then some 0 else none,
    string_props := fun p => if p = "reg-names" then some ["dbi", "config"] else none,
    reg := fun i => if i = 1 then (0, ⟨0x01f00000, 0x01f7ffff⟩) else (-22, ⟨0, 0⟩) }

/-- A port without `hard-wired`, with `local-addr = <0x80000000>`, whose second
`reg` entry is named "config". -/
def node_ep : device_node :=
  { device_type := "pci", available := true,
    u32_props := fun p => if p = "local-addr" then some 0x80000000 else none,
    string_props := fun p => if p = "reg-names" then some ["dbi", "config"] else none,
    reg := fun i => if i = 1 then (0, ⟨0x01f00000, 0x01f7ffff⟩) else (-22, ⟨0, 0⟩) }

/-- The same port without `local-addr`. -/
def node_ep_plain : device_node :=
  { node_ep with u32_props := fun _ => none }

/-- A port without `hard-wired` whose `reg-names` lacks "config". -/
def node_no_config : device_node :=
  { node_ep with string_props := fun p => if p = "reg-names" then some ["dbi"] else none }

/-- A node of another type. -/
def node_other : device_node :=
  { node_ep with device_type := "cpu" }

/-- A run in which every service succeeds, over a given device tree; the MSI
capability dword of the root complex holds `0x00807005` beforehand. -/
def env_of (nodes : List device_node) : probe_env :=
  { kzalloc_ok := true, enable_device_ret := 0, enable_msi_ret := 0,
    allnodes := nodes, phys_addr_t_64bit := false, local_addr_uninit := 7,
    cfg := fun b _ w => if b = pci_bus.parent ∧ w = 0x50 then 0x00807005 else 0 }

/-- The tree with a node of another type, a disabled port, a hard-wired port
and the port `node_ep`, in this order. -/
def env_ep : probe_env :=
  env_of [node_other, node_disabled, node_hard_wired, node_ep]

/-- The tree with a hard-wired port and the port `node_ep_plain`. -/
def env_ep_plain : probe_env :=
  env_of [node_hard_wired, node_ep_plain]

/-- The tree with a hard-wired port and a port whose `reg-names` lacks
"config". -/
def env_no_config : probe_env :=
  env_of [node_hard_wired, node_no_config]

/-- The tree `env_ep` in a run in which `pci_enable_msi` fails with -28. -/
def env_msi_fail : probe_env :=
  { env_ep with enable_msi_ret := -28 }

/-- The tree with a node of another type and two hard-wired ports. -/
def env_all_hard_wired : probe_env :=
  env_of [node_other, node_hard_wired, node_hard_wired]

/-- The tree whose only port is marked `hard-wired = <0>`. -/
def env_hard_wired_zero : probe_env :=
  env_of [node_hard_wired_zero]

/-! ## Facts about the kernel services -/

theorem strcmp_chars_eq_zero (a b : List Char) : strcmp_chars a b = 0 ↔ a = b := by
  induction a generalizing b with
  | nil => cases b <;> simp [strcmp_chars]
  | cons x xs ih =>
    cases b with
    | nil => simp [strcmp_chars]
    | cons y ys =>
      by_cases hxy : x = y
      · simp [strcmp_chars, hxy, ih]
      · by_cases hlt : x.toNat < y.toNat <;> simp [strcmp_chars, hxy, hlt]

theorem strcmp_eq_zero (a b : String) : strcmp a b = 0 ↔ a = b := by
  unfold strcmp
  rw [strcmp_chars_eq_zero]
  exact ⟨fun h => String.ext h, fun h => by rw [h]⟩

theorem count_strings_eq (np : Option device_node) :
    of_property_count_strings np "reg-names" = (reg_names np).length := by
  cases np with
  | none => rfl
  | some n =>
    cases hs : n.string_props "reg-names" <;>
      simp [of_property_count_strings, reg_names, hs]

theorem read_string_some (np : Option device_node) (i : Nat) (s : String)
    (h : (reg_names np)[i]? = some s) :
    of_property_read_string_index np "reg-names" i = (0, s) := by
  cases np with
  | none => simp [reg_names] at h
  | some n =>
    cases hs : n.string_props "reg-names" with
    | none => simp [reg_names, hs] at h
    | some l =>
      have h2 : l[i]? = some s := by simpa [reg_names, hs] using h
      simp [of_property_read_string_index, hs, h2]

theorem read_string_none (np : Option device_node) (i : Nat)
    (h : (reg_names np)[i]? = none) :
    (of_property_read_string_index np "reg-names" i).1 ≠ 0 := by
  cases np with
  | none => simp [of_property_read_string_index, EINVAL]
  | some n =>
    cases hs : n.string_props "reg-names" with
    | none => simp [of_property_read_string_index, hs, EINVAL]
    | some l =>
      have h2 : l[i]? = none := by simpa [reg_names, hs] using h
      simp [of_property_read_string_index, hs, h2, ENODATA]

/-- The `reg-names` loop leaves through a failed read or a match, never by
reaching its bound: with `found` set, `index` is the first position from the
starting one that holds "config"; with `found` clear, no position from the
starting one holds it. -/
theorem reg_names_loop_spec (np : Option device_node) (fuel index : Nat)
    (hfuel : (reg_names np).length < fuel + index) :
    ((reg_names_loop np fuel index).2 = true →
      index ≤ (reg_names_loop np fuel index).1 ∧
      (reg_names np)[(reg_names_loop np fuel index).1]? = some "config" ∧
      ∀ j, index ≤ j → j < (reg_names_loop np fuel index).1 →
        (reg_names np)[j]? ≠ some "config") ∧
    ((reg_names_loop np fuel index).2 = false →
      ∀ j, index ≤ j → (reg_names np)[j]? ≠ some "config") := by
  induction fuel generalizing index with
  | zero =>
    have hlen : (reg_names np).length < index := by omega
    refine ⟨by simp [reg_names_loop], fun _ j hj => ?_⟩
    have : (reg_names np)[j]? = none := List.getElem?_eq_none (by omega)
    simp [this]
  | succ k ih =>
    cases hrd : (reg_names np)[index]? with
    | none =>
      have hne := read_string_none np index hrd
      have hlen : (reg_names np).length ≤ index := by
        by_contra hc
        have := List.getElem?_eq_getElem (l := reg_names np) (Nat.lt_of_not_le hc)
        simp [this] at hrd
      refine ⟨by simp [reg_names_loop, hne], fun _ j hj => ?_⟩
      have : (reg_names np)[j]? = none := List.getElem?_eq_none (by omega)
      simp [this]
    | some s =>
      have hrs := read_string_some np index s hrd
      by_cases hs : s = "config"
      · have hz : strcmp "config" s = 0 := (strcmp_eq_zero _ _).mpr hs.symm
        have hl : reg_names_loop np (k + 1) index = (index, true) := by
          simp [reg_names_loop, hrs, hz]
        rw [hl]
        refine ⟨fun _ => ⟨le_refl _, by simpa [hs] using hrd, fun j h1 h2 => by omega⟩, by simp⟩
      · have hz : strcmp "config" s ≠ 0 := fun h => hs ((strcmp_eq_zero _ _).mp h).symm
        have hl : reg_names_loop np (k + 1) index = reg_names_loop np k (index + 1) := by
          simp [reg_names_loop, hrs, hz]
        rw [hl]
        have ih2 := ih (index + 1) (by omega)
        refine ⟨fun hf => ?_, fun hf j hj => ?_⟩
        · obtain ⟨h1, h2, h3⟩ := ih2.1 hf
          refine ⟨by omega, h2, fun j hj1 hj2 => ?_⟩
          by_cases hji : j = index
          · subst hji
            rw [hrd]
            simpa using hs
          · exact h3 j (by omega) hj2
        · by_cases hji : j = index
          · subst hji
            rw [hrd]
            simpa using hs
          · exact ih2.2 hf j (by omega)

/-- The search as the routine runs it: `found` is set exactly when "config" is
among the strings, and `index` is then the least position holding it. -/
theorem config_search_spec (e : probe_env) :
    ((config_search e).2 = true ↔ "config" ∈ reg_names (selected_node e)) ∧
    ((config_search e).2 = true →
      least_config_index (reg_names (selected_node e)) (config_search e).1) := by
  have h := reg_names_loop_spec (selected_node e)
    (of_property_count_strings (selected_node e) "reg-names" + 1) 0
    (by rw [count_strings_eq]; omega)
  refine ⟨⟨fun hf => ?_, fun hm => ?_⟩, fun hf => ?_⟩
  · obtain ⟨-, h2, -⟩ := h.1 hf
    exact List.getElem?_mem h2
  · by_contra hc
    have hc2 : (config_search e).2 = false := by simpa using hc
    obtain ⟨j, hj⟩ := List.getElem?_of_mem hm
    exact h.2 hc2 j (Nat.zero_le _) hj
  · obtain ⟨-, h2, h3⟩ := h.1 hf
    exact ⟨h2, fun j hj => h3 j (Nat.zero_le _) hj⟩

/-! ## The paths through the probe routine -/

theorem probe_alloc_fail (e : probe_env) (h1 : e.kzalloc_ok = false) :
    imx_pcie_ep_probe e = (-ENOMEM, ⟨[event.devm_kzalloc false], e.cfg⟩) := by
  simp [imx_pcie_ep_probe, h1, kstate.log]

theorem probe_enable_fail (e : probe_env) (h1 : e.kzalloc_ok = true)
    (h2 : e.enable_device_ret ≠ 0) :
    imx_pcie_ep_probe e =
      (-ENODEV, ⟨[event.devm_kzalloc true, event.pci_enable_device e.enable_device_ret,
        event.kfree], e.cfg⟩) := by
  simp [imx_pcie_ep_probe, h1, h2, kstate.log, out]

theorem probe_msi_fail (e : probe_env) (h1 : e.kzalloc_ok = true)
    (h2 : e.enable_device_ret = 0) (h3 : e.enable_msi_ret < 0) :
    imx_pcie_ep_probe e =
      (e.enable_msi_ret, ⟨[event.devm_kzalloc true, event.pci_enable_device 0,
        event.pci_set_master, event.pci_set_drvdata, event.pci_enable_msi e.enable_msi_ret,
        event.dev_err err_msg.enable_msi, event.pci_disable_device, event.kfree], e.cfg⟩) := by
  simp [imx_pcie_ep_probe, h1, h2, h3, kstate.log, out, err_pci_unmap_mmio]

theorem probe_no_config (e : probe_env) (h1 : e.kzalloc_ok = true)
    (h2 : e.enable_device_ret = 0) (h3 : ¬ e.enable_msi_ret < 0)
    (h4 : (config_search e).2 = false) :
    imx_pcie_ep_probe e =
      (-EINVAL, ⟨[event.devm_kzalloc true, event.pci_enable_device 0,
        event.pci_set_master, event.pci_set_drvdata, event.pci_enable_msi e.enable_msi_ret,
        event.dev_err err_msg.find_config, event.pci_disable_msi, event.pci_disable_device,
        event.kfree], e.cfg⟩) := by
  unfold config_search selected_node at h4
  simp [imx_pcie_ep_probe, h1, h2, h3, h4, kstate.log, out, err_pci_unmap_mmio,
    err_pci_disable_msi]

theorem probe_no_resource (e : probe_env) (h1 : e.kzalloc_ok = true)
    (h2 : e.enable_device_ret = 0) (h3 : ¬ e.enable_msi_ret < 0)
    (h4 : (config_search e).2 = true)
    (h5 : (of_address_to_resource (selected_node e) (config_search e).1).1 ≠ 0) :
    imx_pcie_ep_probe e =
      (-EINVAL, ⟨[event.devm_kzalloc true, event.pci_enable_device 0,
        event.pci_set_master, event.pci_set_drvdata, event.pci_enable_msi e.enable_msi_ret,
        event.dev_err err_msg.get_cfg_res, event.pci_disable_msi, event.pci_disable_device,
        event.kfree], e.cfg⟩) := by
  unfold config_search selected_node at h4 h5
  simp [imx_pcie_ep_probe, h1, h2, h3, h4, h5, kstate.log, out, err_pci_unmap_mmio,
    err_pci_disable_msi]

theorem trunc_mod (e : probe_env) (x : Nat) :
    x % 2 ^ resource_bits e % 4294967296 = x % 4294967296 := by
  have hd : 4294967296 ∣ 2 ^ resource_bits e := by
    unfold resource_bits
    split
    · exact (by decide : 4294967296 ∣ 2 ^ 64)
    · exact (by decide : 4294967296 ∣ 2 ^ 32)
  exact Nat.mod_mod_of_dvd _ hd

theorem local_addr_value_eq (e : probe_env) :
    (if (of_property_read_u32 (selected_node e) "local-addr" e.local_addr_uninit).1 ≠ 0 then 0
      else (of_property_read_u32 (selected_node e) "local-addr" e.local_addr_uninit).2) =
    local_addr_value e := by
  unfold local_addr_value of_property_read_u32
  cases selected_node e with
  | none => simp [EINVAL]
  | some n => cases h : n.u32_props "local-addr" <;> simp [h, EINVAL]

theorem probe_ok (e : probe_env) (h1 : e.kzalloc_ok = true)
    (h2 : e.enable_device_ret = 0) (h3 : ¬ e.enable_msi_ret < 0)
    (h4 : (config_search e).2 = true)
    (h5 : (of_address_to_resource (selected_node e) (config_search e).1).1 = 0) :
    (imx_pcie_ep_probe e).1 = 0 ∧
    (imx_pcie_ep_probe e).2.trace =
      [event.devm_kzalloc true, event.pci_enable_device 0,
        event.pci_set_master, event.pci_set_drvdata, event.pci_enable_msi e.enable_msi_ret,
        event.pr_info (msi_base e) (local_addr_value e),
        event.cfg_write pci_bus.bus 0 0x54 (msi_base e),
        event.cfg_write pci_bus.parent 0 0x820
          (if local_addr_value e ≠ 0 then
            (msi_base e &&& 0xFFFFFFF) ||| (local_addr_value e &&& 0xF0000000)
          else msi_base e),
        event.cfg_read pci_bus.parent 0 0x50,
        event.cfg_write pci_bus.parent 0 0x50 (e.cfg pci_bus.parent 0 0x50 ||| 0x10000),
        event.cfg_write pci_bus.parent 0 0x828 0x1,
        event.cfg_write pci_bus.parent 0 0x82C 0xFFFFFFFE] ∧
    (imx_pcie_ep_probe e).2.cfg pci_bus.parent 0 0x50 = e.cfg pci_bus.parent 0 0x50 ||| 0x10000 ∧
    (imx_pcie_ep_probe e).2.cfg pci_bus.parent 0 0x828 = 0x1 ∧
    (imx_pcie_ep_probe e).2.cfg pci_bus.parent 0 0x82C = 0xFFFFFFFE := by
  have hla := local_addr_value_eq e
  unfold config_search selected_node at h4 h5
  unfold selected_node at hla
  simp only [ne_eq] at hla
  simp [imx_pcie_ep_probe, h1, h2, h3, h4, h5, kstate.log, pci_bus_write_config_dword,
    pci_bus_read_config_dword, PCI_MSI_FLAGS_ENABLE, hla, trunc_mod, msi_base, config_resource,
    config_search, selected_node]

/-- The routine returns zero exactly on the path on which every step
succeeds. -/
theorem probe_ret_zero_iff (e : probe_env) :
    (imx_pcie_ep_probe e).1 = 0 ↔
      e.kzalloc_ok = true ∧ e.enable_device_ret = 0 ∧ ¬ e.enable_msi_ret < 0 ∧
      (config_search e).2 = true ∧
      (of_address_to_resource (selected_node e) (config_search e).1).1 = 0 := by
  constructor
  · intro h
    by_cases h1 : e.kzalloc_ok = true
    · by_cases h2 : e.enable_device_ret = 0
      · by_cases h3 : e.enable_msi_ret < 0
        · rw [probe_msi_fail e h1 h2 h3] at h
          simp only at h
          omega
        · by_cases h4 : (config_search e).2 = true
          · by_cases h5 : (of_address_to_resource (selected_node e) (config_search e).1).1 = 0
            · exact ⟨h1, h2, h3, h4, h5⟩
            · rw [probe_no_resource e h1 h2 h3 h4 h5] at h
              simp [EINVAL] at h
          · rw [probe_no_config e h1 h2 h3 (by simpa using h4)] at h
            simp [EINVAL] at h
      · rw [probe_enable_fail e h1 h2] at h
        simp [ENODEV] at h
    · rw [probe_alloc_fail e (by simpa using h1)] at h
      simp [ENOMEM] at h
  · rintro ⟨h1, h2, h3, h4, h5⟩
    exact (probe_ok e h1 h2 h3 h4 h5).1

theorem least_config_index_unique (names : List String) (i j : Nat)
    (hi : least_config_index names i) (hj : least_config_index names j) : i = j := by
  rcases Nat.lt_trichotomy i j with h | h | h
  · exact absurd hi.1 (hj.2 i h)
  · exact h
  · exact absurd hj.1 (hi.2 j h)

/-- On a successful run the index handed to the resolver is the least one
naming "config". -/
theorem config_index_of_ok (e : probe_env) (n : device_node) (i : Nat)
    (hok : (imx_pcie_ep_probe e).1 = 0) (hsel : selected_node e = some n)
    (hidx : least_config_index (reg_names (some n)) i) :
    (config_search e).1 = i := by
  have h4 := ((probe_ret_zero_iff e).mp hok).2.2.2.1
  have hl := (config_search_spec e).2 h4
  rw [hsel] at hl
  exact least_config_index_unique _ _ _ hl hidx

/-- The node-selection loop returns the first node that is available and whose
read of `hard-wired` fails. -/
theorem select_loop_eq_find (l : List device_node) :
    select_loop l =
      l.find? (fun n => n.available && (n.u32_props "hard-wired").isNone) := by
  induction l with
  | nil => rfl
  | cons n rest ih =>
    cases ha : n.available with
    | false => simp [select_loop, of_device_is_available, ha, ih, List.find?_cons]
    | true =>
      cases hh : n.u32_props "hard-wired" with
      | none =>
        simp [select_loop, of_device_is_available, ha, hh, of_property_read_u32, EINVAL,
          List.find?_cons]
      | some v =>
        simp [select_loop, of_device_is_available, ha, hh, of_property_read_u32, ih,
          List.find?_cons]

/-- The calls of a successful run, in terms of the selected node `n` and the
least index `i` naming "config". -/
theorem ok_trace (e : probe_env) (n : device_node) (i : Nat)
    (hok : (imx_pcie_ep_probe e).1 = 0) (hsel : selected_node e = some n)
    (hidx : least_config_index (reg_names (some n)) i) :
    (n.reg i).1 = 0 ∧
    (imx_pcie_ep_probe e).2.trace =
      [event.devm_kzalloc true, event.pci_enable_device 0,
        event.pci_set_master, event.pci_set_drvdata, event.pci_enable_msi e.enable_msi_ret,
        event.pr_info
          (((n.reg i).2.start + resource_size (resource_bits e) (n.reg i).2) % 2 ^ 32)
          ((n.u32_props "local-addr").getD 0),
        event.cfg_write pci_bus.bus 0 0x54
          (((n.reg i).2.start + resource_size (resource_bits e) (n.reg i).2) % 2 ^ 32),
        event.cfg_write pci_bus.parent 0 0x820
          (if (n.u32_props "local-addr").getD 0 ≠ 0 then
            ((((n.reg i).2.start + resource_size (resource_bits e) (n.reg i).2) % 2 ^ 32)
              &&& 0xFFFFFFF) ||| ((n.u32_props "local-addr").getD 0 &&& 0xF0000000)
          else ((n.reg i).2.start + resource_size (resource_bits e) (n.reg i).2) % 2 ^ 32),
        event.cfg_read pci_bus.parent 0 0x50,
        event.cfg_write pci_bus.parent 0 0x50 (e.cfg pci_bus.parent 0 0x50 ||| 0x10000),
        event.cfg_write pci_bus.parent 0 0x828 0x1,
        event.cfg_write pci_bus.parent 0 0x82C 0xFFFFFFFE] := by
  obtain ⟨h1, h2, h3, h4, h5⟩ := (probe_ret_zero_iff e).mp hok
  have hi := config_index_of_ok e n i hok hsel hidx
  have hM : msi_base e =
      ((n.reg i).2.start + resource_size (resource_bits e) (n.reg i).2) % 2 ^ 32 := by
    simp [msi_base, config_resource, hi, hsel, of_address_to_resource]
  have hla : local_addr_value e = (n.u32_props "local-addr").getD 0 := by
    simp [local_addr_value, hsel]
  have ht := (probe_ok e h1 h2 h3 h4 h5).2.1
  rw [hM, hla] at ht
  refine ⟨?_, ht⟩
  simpa [hi, hsel, of_address_to_resource] using h5

/-- For a resource with `start ≤ end` whose size fits `resource_size_t`,
`resource_size` is `end - start + 1`. -/
theorem resource_size_eq (w : Nat) (res : resource) (h1 : res.start ≤ res.end_)
    (h2 : res.end_ < 2 ^ w) (h3 : res.end_ - res.start + 1 < 2 ^ w) :
    resource_size w res = res.end_ - res.start + 1 := by
  unfold resource_size
  rw [Nat.mod_eq_of_lt h2, Nat.mod_eq_of_lt (lt_of_le_of_lt h1 h2)]
  have he : res.end_ + 2 ^ w - res.start + 1 = (res.end_ - res.start + 1) + 2 ^ w := by omega
  rw [he, Nat.add_mod_right, Nat.mod_eq_of_lt h3]

/-- Replacing the values of `hard-wired` does not change where the
node-selection loop stops. -/
theorem select_loop_map (f : Nat → Nat) (l : List device_node) :
    select_loop (l.map (with_hard_wired f)) = (select_loop l).map (with_hard_wired f) := by
  induction l with
  | nil => rfl
  | cons n rest ih =>
    cases ha : n.available with
    | false => simp [select_loop, of_device_is_available, with_hard_wired, ha, ih]
    | true =>
      cases hh : n.u32_props "hard-wired" with
      | none =>
        simp [select_loop, of_device_is_available, with_hard_wired, ha, hh,
          of_property_read_u32, EINVAL]
      | some v =>
        simp [select_loop, of_device_is_available, with_hard_wired, ha, hh,
          of_property_read_u32, ih]

theorem find_node_map (f : Nat → Nat) (l : List device_node) (type : String) :
    of_find_node_by_type (l.map (with_hard_wired f)) type =
      (of_find_node_by_type l type).map (with_hard_wired f) := by
  unfold of_find_node_by_type
  rw [List.filter_map]
  rfl

/-! ## The properties -/

/-- C1: on a successful run over a selected node whose config resource has base
`B` and size `S` and whose `local-addr` reads as a non-zero `L`, the one value
written to offset 0x820 of the root complex is `(M & 0x0FFFFFFF) | (L &
0xF0000000)` for `M = B + S` as a 32-bit value, and the one value written to
offset 0x54 of the endpoint is `M`; when the top nibble of `L` is zero, so is
that of the value written to 0x820. -/
theorem msi_addr_folds_local_addr (e : probe_env) (n : device_node) (i B S L : Nat)
    (hok : (imx_pcie_ep_probe e).1 = 0)
    (hsel : selected_node e = some n)
    (hidx : least_config_index (reg_names (some n)) i)
    (hB : (n.reg i).2.start = B)
    (hS : resource_size (resource_bits e) (n.reg i).2 = S)
    (hL : n.u32_props "local-addr" = some L) (hL0 : L ≠ 0) :
    written (imx_pcie_ep_probe e).2.trace pci_bus.parent 0 0x820 =
      [(((B + S) % 2 ^ 32) &&& 0x0FFFFFFF) ||| (L &&& 0xF0000000)] ∧
    written (imx_pcie_ep_probe e).2.trace pci_bus.bus 0 0x54 = [(B + S) % 2 ^ 32] ∧
    (L &&& 0xF0000000 = 0 →
      ((((B + S) % 2 ^ 32) &&& 0x0FFFFFFF) ||| (L &&& 0xF0000000)) &&& 0xF0000000 = 0) := by
  have ht := (ok_trace e n i hok hsel hidx).2
  rw [hB, hS, hL] at ht
  refine ⟨?_, ?_, ?_⟩
  · rw [ht]
    simp [written, hL0]
  · rw [ht]
    simp [written]
  · intro hz
    rw [hz, Nat.or_zero, Nat.and_assoc]
    have hm : (268435455 : Nat) &&& 4026531840 = 0 := by decide
    rw [hm, Nat.and_zero]

/-- C1 on `env_ep` (base 0x01f00000, size 0x80000, `local-addr` 0x80000000): the
run succeeds, 0x81f80000 is written to 0x820 and 0x01f80000 to 0x54. -/
theorem msi_addr_folds_local_addr_witness :
    (imx_pcie_ep_probe env_ep).1 = 0 ∧
    written (imx_pcie_ep_probe env_ep).2.trace pci_bus.parent 0 0x820 = [0x81f80000] ∧
    written (imx_pcie_ep_probe env_ep).2.trace pci_bus.bus 0 0x54 = [0x01f80000] :=
  ⟨by decide,
   (msi_addr_folds_local_addr env_ep node_ep 1 0x01f00000 0x80000 0x80000000
      (by decide) rfl ⟨rfl, by decide⟩ rfl rfl rfl (by decide)).1,
   (msi_addr_folds_local_addr env_ep node_ep 1 0x01f00000 0x80000 0x80000000
      (by decide) rfl ⟨rfl, by decide⟩ rfl rfl rfl (by decide)).2.1⟩

/-- C2: on a successful run over a selected node whose config resource has base
`B` and size `S` and whose `local-addr` is absent or reads as zero, the one value
written to offset 0x54 of the endpoint and the one value written to offset 0x820
of the root complex are both `B + S` as a 32-bit value; for a resource with
`start ≤ end` whose size fits `resource_size_t`, `S` is `end - start + 1`. -/
theorem msi_addr_without_local_addr (e : probe_env) (n : device_node) (i B S : Nat)
    (hok : (imx_pcie_ep_probe e).1 = 0)
    (hsel : selected_node e = some n)
    (hidx : least_config_index (reg_names (some n)) i)
    (hB : (n.reg i).2.start = B)
    (hS : resource_size (resource_bits e) (n.reg i).2 = S)
    (hL : n.u32_props "local-addr" = none ∨ n.u32_props "local-addr" = some 0) :
    written (imx_pcie_ep_probe e).2.trace pci_bus.bus 0 0x54 = [(B + S) % 2 ^ 32] ∧
    written (imx_pcie_ep_probe e).2.trace pci_bus.parent 0 0x820 = [(B + S) % 2 ^ 32] ∧
    ((n.reg i).2.start ≤ (n.reg i).2.end_ → (n.reg i).2.end_ < 2 ^ resource_bits e →
      (n.reg i).2.end_ - (n.reg i).2.start + 1 < 2 ^ resource_bits e →
      S = (n.reg i).2.end_ - (n.reg i).2.start + 1) := by
  have ht := (ok_trace e n i hok hsel hidx).2
  have hla : (n.u32_props "local-addr").getD 0 = 0 := by
    rcases hL with h | h <;> simp [h]
  rw [hB, hS, hla] at ht
  rw [ht]
  refine ⟨by simp [written], by simp [written], fun h1 h2 h3 => ?_⟩
  rw [← hS]
  exact resource_size_eq _ _ h1 h2 h3

/-- C2 on `env_ep_plain` (base 0x01f00000, size 0x80000, no `local-addr`): the run
succeeds and 0x01f80000 is written to both registers. -/
theorem msi_addr_without_local_addr_witness :
    (imx_pcie_ep_probe env_ep_plain).1 = 0 ∧
    written (imx_pcie_ep_probe env_ep_plain).2.trace pci_bus.bus 0 0x54 = [0x01f80000] ∧
    written (imx_pcie_ep_probe env_ep_plain).2.trace pci_bus.parent 0 0x820 = [0x01f80000] :=
  ⟨by decide,
   (msi_addr_without_local_addr env_ep_plain node_ep_plain 1 0x01f00000 0x80000
      (by decide) rfl ⟨rfl, by decide⟩ rfl rfl (Or.inl rfl)).1,
   (msi_addr_without_local_addr env_ep_plain node_ep_plain 1 0x01f00000 0x80000
      (by decide) rfl ⟨rfl, by decide⟩ rfl rfl (Or.inl rfl)).2.1⟩

/-- C3: after a successful run, with `v` the value of the root-complex register
at offset 0x50 before the run, that register holds `v | 0x10000`, which is
`PCI_MSI_FLAGS_ENABLE << 16`: bit 16 is set and every other bit is that of `v`;
offset 0x828 holds 0x1 and offset 0x82C holds 0xFFFFFFFE. -/
theorem rc_msi_registers (e : probe_env) (v : Nat)
    (hok : (imx_pcie_ep_probe e).1 = 0)
    (hv : e.cfg pci_bus.parent 0 0x50 = v) :
    (imx_pcie_ep_probe e).2.cfg pci_bus.parent 0 0x50 = v ||| 0x10000 ∧
    0x10000 = PCI_MSI_FLAGS_ENABLE <<< 16 ∧
    (v ||| 0x10000).testBit 16 = true ∧
    (∀ k, k ≠ 16 → (v ||| 0x10000).testBit k = v.testBit k) ∧
    (imx_pcie_ep_probe e).2.cfg pci_bus.parent 0 0x828 = 0x1 ∧
    (imx_pcie_ep_probe e).2.cfg pci_bus.parent 0 0x82C = 0xFFFFFFFE := by
  obtain ⟨h1, h2, h3, h4, h5⟩ := (probe_ret_zero_iff e).mp hok
  obtain ⟨-, -, c1, c2, c3⟩ := probe_ok e h1 h2 h3 h4 h5
  have hp : (0x10000 : Nat) = 2 ^ 16 := by decide
  refine ⟨by rw [c1, hv], by decide, ?_, ?_, c2, c3⟩
  · rw [hp, Nat.testBit_or, Nat.testBit_two_pow_self, Bool.or_true]
  · intro k hk
    rw [hp, Nat.testBit_or, Nat.testBit_two_pow_of_ne (Ne.symm hk), Bool.or_false]

/-- C3 on `env_ep`, where the register at 0x50 holds 0x00807005 beforehand: it
holds 0x00817005 afterwards. -/
theorem rc_msi_registers_witness :
    (imx_pcie_ep_probe env_ep).1 = 0 ∧
    (imx_pcie_ep_probe env_ep).2.cfg pci_bus.parent 0 0x50 = 0x00817005 ∧
    (imx_pcie_ep_probe env_ep).2.cfg pci_bus.parent 0 0x828 = 0x1 ∧
    (imx_pcie_ep_probe env_ep).2.cfg pci_bus.parent 0 0x82C = 0xFFFFFFFE :=
  ⟨by decide,
   (rc_msi_registers env_ep 0x00807005 (by decide) rfl).1,
   (rc_msi_registers env_ep 0x00807005 (by decide) rfl).2.2.2.2.1,
   (rc_msi_registers env_ep 0x00807005 (by decide) rfl).2.2.2.2.2⟩

/-- C4: on every run that fails, no configuration-space write is made and the
configuration space is left as it was; the calls of the run are a first part
without any release, followed by exactly the releases of what the first part
acquired, in the reverse order of acquisition (disable MSI if MSI was enabled,
disable the device if it was enabled, free the record if it was allocated). -/
theorem failure_unwinds (e : probe_env) (hfail : (imx_pcie_ep_probe e).1 ≠ 0) :
    cfg_writes (imx_pcie_ep_probe e).2.trace = [] ∧
    (imx_pcie_ep_probe e).2.cfg = e.cfg ∧
    released (imx_pcie_ep_probe e).2.trace = (acquired (imx_pcie_ep_probe e).2.trace).reverse ∧
    ∃ pre, (imx_pcie_ep_probe e).2.trace = pre ++ (acquired pre).reverse.map release_call ∧
      released pre = [] := by
  by_cases h1 : e.kzalloc_ok = true
  · by_cases h2 : e.enable_device_ret = 0
    · by_cases h3 : e.enable_msi_ret < 0
      · rw [probe_msi_fail e h1 h2 h3]
        refine ⟨by simp [cfg_writes], rfl, by simp [released, acquired, h3], ?_⟩
        exact ⟨[event.devm_kzalloc true, event.pci_enable_device 0, event.pci_set_master,
          event.pci_set_drvdata, event.pci_enable_msi e.enable_msi_ret,
          event.dev_err err_msg.enable_msi],
          by simp [acquired, h3, release_call], by simp [released]⟩
      · by_cases h4 : (config_search e).2 = true
        · by_cases h5 : (of_address_to_resource (selected_node e) (config_search e).1).1 = 0
          · exact absurd ((probe_ret_zero_iff e).mpr ⟨h1, h2, h3, h4, h5⟩) hfail
          · rw [probe_no_resource e h1 h2 h3 h4 h5]
            refine ⟨by simp [cfg_writes], rfl, by simp [released, acquired, h3], ?_⟩
            exact ⟨[event.devm_kzalloc true, event.pci_enable_device 0, event.pci_set_master,
              event.pci_set_drvdata, event.pci_enable_msi e.enable_msi_ret,
              event.dev_err err_msg.get_cfg_res],
              by simp [acquired, h3, release_call], by simp [released]⟩
        · rw [probe_no_config e h1 h2 h3 (by simpa using h4)]
          refine ⟨by simp [cfg_writes], rfl, by simp [released, acquired, h3], ?_⟩
          exact ⟨[event.devm_kzalloc true, event.pci_enable_device 0, event.pci_set_master,
            event.pci_set_drvdata, event.pci_enable_msi e.enable_msi_ret,
            event.dev_err err_msg.find_config],
            by simp [acquired, h3, release_call], by simp [released]⟩
    · rw [probe_enable_fail e h1 h2]
      refine ⟨by simp [cfg_writes], rfl, by simp [released, acquired, h2], ?_⟩
      exact ⟨[event.devm_kzalloc true, event.pci_enable_device e.enable_device_ret],
        by simp [acquired, h2, release_call], by simp [released]⟩
  · rw [probe_alloc_fail e (by simpa using h1)]
    refine ⟨by simp [cfg_writes], rfl, by simp [released, acquired], ?_⟩
    exact ⟨[event.devm_kzalloc false], by simp [acquired], by simp [released]⟩

/-- C4 on `env_msi_fail`, where MSI enable fails: the run fails, writes nothing,
and releases the device, then the record; MSI is not disabled. -/
theorem failure_unwinds_witness :
    (imx_pcie_ep_probe env_msi_fail).1 ≠ 0 ∧
    cfg_writes (imx_pcie_ep_probe env_msi_fail).2.trace = [] ∧
    released (imx_pcie_ep_probe env_msi_fail).2.trace =
      [acquirable.device, acquirable.record] :=
  ⟨by decide, (failure_unwinds env_msi_fail (by decide)).1,
   (failure_unwinds env_msi_fail (by decide)).2.2.1⟩

/-- C5: when allocation, device enable and MSI enable succeed and the
`reg-names` of the selected node has no entry "config", the routine returns
-EINVAL, makes no configuration-space write, leaves the configuration space as
it was, and ends with: disable MSI, disable the device, free the record. -/
theorem no_config_entry (e : probe_env)
    (h1 : e.kzalloc_ok = true) (h2 : e.enable_device_ret = 0)
    (h3 : 0 ≤ e.enable_msi_ret)
    (h4 : "config" ∉ reg_names (selected_node e)) :
    (imx_pcie_ep_probe e).1 = -EINVAL ∧
    cfg_writes (imx_pcie_ep_probe e).2.trace = [] ∧
    (imx_pcie_ep_probe e).2.cfg = e.cfg ∧
    ∃ pre, (imx_pcie_ep_probe e).2.trace =
        pre ++ [event.pci_disable_msi, event.pci_disable_device, event.kfree] ∧
      released pre = [] := by
  have hf : (config_search e).2 = false := by
    by_contra hc
    exact h4 ((config_search_spec e).1.mp (by simpa using hc))
  rw [probe_no_config e h1 h2 (by omega) hf]
  refine ⟨rfl, by simp [cfg_writes], rfl, ?_⟩
  exact ⟨[event.devm_kzalloc true, event.pci_enable_device 0, event.pci_set_master,
    event.pci_set_drvdata, event.pci_enable_msi e.enable_msi_ret,
    event.dev_err err_msg.find_config], by simp, by simp [released]⟩

/-- C5 on `env_no_config`, whose selected port has `reg-names = "dbi"`: the
routine returns -22 and writes nothing. -/
theorem no_config_entry_witness :
    (imx_pcie_ep_probe env_no_config).1 = -22 ∧
    cfg_writes (imx_pcie_ep_probe env_no_config).2.trace = [] :=
  ⟨(no_config_entry env_no_config rfl rfl (by decide) (by decide)).1,
   (no_config_entry env_no_config rfl rfl (by decide) (by decide)).2.1⟩

/-- C6: when every node of type "pci" carries a `hard-wired` property that
reads as a non-zero value (the empty tree included), the node-selection loop
ends with a null handle, on which the reads of a `u32` and of a string fail;
the routine fails with a negative code and writes no configuration-space
register, and the code is -EINVAL whenever allocation, device enable and MSI
enable succeed, that is whenever the routine reaches the device tree. -/
theorem no_eligible_node (e : probe_env)
    (hnone : ∀ n ∈ e.allnodes, n.device_type = "pci" →
      ∃ v, n.u32_props "hard-wired" = some v ∧ v ≠ 0) :
    selected_node e = none ∧
    (∀ p out, (of_property_read_u32 none p out).1 < 0) ∧
    (∀ p i, (of_property_read_string_index none p i).1 < 0) ∧
    (imx_pcie_ep_probe e).1 < 0 ∧
    cfg_writes (imx_pcie_ep_probe e).2.trace = [] ∧
    (imx_pcie_ep_probe e).2.cfg = e.cfg ∧
    (e.kzalloc_ok = true → e.enable_device_ret = 0 → 0 ≤ e.enable_msi_ret →
      (imx_pcie_ep_probe e).1 = -EINVAL) := by
  have hsel : selected_node e = none := by
    unfold selected_node
    rw [select_loop_eq_find, List.find?_eq_none]
    intro n hn
    have hm := List.mem_filter.mp hn
    obtain ⟨v, hv, -⟩ := hnone n hm.1 (by simpa [of_find_node_by_type] using hm.2)
    simp [hv]
  have hcfg : "config" ∉ reg_names (selected_node e) := by
    rw [hsel]
    simp [reg_names]
  have hf : (config_search e).2 = false := by
    by_contra hc
    exact hcfg ((config_search_spec e).1.mp (by simpa using hc))
  refine ⟨hsel, fun p out => by simp [of_property_read_u32, EINVAL],
    fun p i => by simp [of_property_read_string_index, EINVAL], ?_⟩
  by_cases h1 : e.kzalloc_ok = true
  · by_cases h2 : e.enable_device_ret = 0
    · by_cases h3 : e.enable_msi_ret < 0
      · rw [probe_msi_fail e h1 h2 h3]
        exact ⟨h3, by simp [cfg_writes], rfl, fun _ _ h => by omega⟩
      · rw [probe_no_config e h1 h2 h3 hf]
        exact ⟨(by decide : -EINVAL < 0), by simp [cfg_writes], rfl, fun _ _ _ => rfl⟩
    · rw [probe_enable_fail e h1 h2]
      exact ⟨(by decide : -ENODEV < 0), by simp [cfg_writes], rfl, fun _ h => absurd h h2⟩
  · rw [probe_alloc_fail e (by simpa using h1)]
    exact ⟨(by decide : -ENOMEM < 0), by simp [cfg_writes], rfl, fun h => absurd h h1⟩

/-- C6 on `env_all_hard_wired`, whose two ports are both marked
`hard-wired = <1>`: no node is selected, the routine returns -22 and writes
nothing. -/
theorem no_eligible_node_witness :
    selected_node env_all_hard_wired = none ∧
    (imx_pcie_ep_probe env_all_hard_wired).1 = -22 ∧
    cfg_writes (imx_pcie_ep_probe env_all_hard_wired).2.trace = [] :=
  ⟨(no_eligible_node env_all_hard_wired (by decide)).1,
   (no_eligible_node env_all_hard_wired (by decide)).2.2.2.2.2.2 rfl rfl (by decide),
   (no_eligible_node env_all_hard_wired (by decide)).2.2.2.2.1⟩

/-- C7: on the tree whose only port is available and marked `hard-wired = <0>`,
a port that is not hard-wired, the loop selects no node: the read of the
property succeeds, so the test of its value is not reached, and the routine
fails with -EINVAL without writing a register. -/
theorem hard_wired_zero_is_skipped :
    node_hard_wired_zero.available = true ∧
    node_hard_wired_zero.u32_props "hard-wired" = some 0 ∧
    selected_node env_hard_wired_zero = none ∧
    (imx_pcie_ep_probe env_hard_wired_zero).1 = -22 ∧
    cfg_writes (imx_pcie_ep_probe env_hard_wired_zero).2.trace = [] :=
  ⟨rfl, rfl, rfl, by decide, by decide⟩

/-- C8: the routine returns 0 exactly when allocation, device enable, MSI
enable, the search for "config" in `reg-names` and the resolution of the
resource at the index found all succeed; any other return is negative and is
fixed by the first step that fails: -ENOMEM for allocation, -ENODEV for device
enable, the code of `pci_enable_msi` for MSI enable, -EINVAL when "config" is
not found, and -EINVAL when the resolver fails, whatever code it returned. -/
theorem return_code (e : probe_env) :
    ((imx_pcie_ep_probe e).1 = 0 ↔
      e.kzalloc_ok = true ∧ e.enable_device_ret = 0 ∧ 0 ≤ e.enable_msi_ret ∧
      "config" ∈ reg_names (selected_node e) ∧
      ∃ i, least_config_index (reg_names (selected_node e)) i ∧
        (of_address_to_resource (selected_node e) i).1 = 0) ∧
    ((imx_pcie_ep_probe e).1 ≠ 0 → (imx_pcie_ep_probe e).1 < 0) ∧
    (e.kzalloc_ok = false → (imx_pcie_ep_probe e).1 = -ENOMEM) ∧
    (e.kzalloc_ok = true → e.enable_device_ret ≠ 0 → (imx_pcie_ep_probe e).1 = -ENODEV) ∧
    (e.kzalloc_ok = true → e.enable_device_ret = 0 → e.enable_msi_ret < 0 →
      (imx_pcie_ep_probe e).1 = e.enable_msi_ret) ∧
    (e.kzalloc_ok = true → e.enable_device_ret = 0 → 0 ≤ e.enable_msi_ret →
      "config" ∉ reg_names (selected_node e) → (imx_pcie_ep_probe e).1 = -EINVAL) ∧
    (e.kzalloc_ok = true → e.enable_device_ret = 0 → 0 ≤ e.enable_msi_ret →
      ∀ i, least_config_index (reg_names (selected_node e)) i →
        (of_address_to_resource (selected_node e) i).1 ≠ 0 →
        (imx_pcie_ep_probe e).1 = -EINVAL) := by
  have hspec := config_search_spec e
  refine ⟨?_, ?_, ?_, ?_, ?_, ?_, ?_⟩
  · rw [probe_ret_zero_iff]
    constructor
    · rintro ⟨h1, h2, h3, h4, h5⟩
      exact ⟨h1, h2, by omega, hspec.1.mp h4, (config_search e).1, hspec.2 h4, h5⟩
    · rintro ⟨h1, h2, h3, h4, i, hi, h5⟩
      have hf := hspec.1.mpr h4
      have hii := least_config_index_unique _ _ _ (hspec.2 hf) hi
      exact ⟨h1, h2, by omega, hf, by rw [hii]; exact h5⟩
  · intro hne
    by_cases h1 : e.kzalloc_ok = true
    · by_cases h2 : e.enable_device_ret = 0
      · by_cases h3 : e.enable_msi_ret < 0
        · rw [probe_msi_fail e h1 h2 h3]
          exact h3
        · by_cases h4 : (config_search e).2 = true
          · by_cases h5 : (of_address_to_resource (selected_node e) (config_search e).1).1 = 0
            · exact absurd ((probe_ret_zero_iff e).mpr ⟨h1, h2, h3, h4, h5⟩) hne
            · rw [probe_no_resource e h1 h2 h3 h4 h5]
              exact (by decide : -EINVAL < 0)
          · rw [probe_no_config e h1 h2 h3 (by simpa using h4)]
            exact (by decide : -EINVAL < 0)
      · rw [probe_enable_fail e h1 h2]
        exact (by decide : -ENODEV < 0)
    · rw [probe_alloc_fail e (by simpa using h1)]
      exact (by decide : -ENOMEM < 0)
  · intro h1
    rw [probe_alloc_fail e h1]
  · intro h1 h2
    rw [probe_enable_fail e h1 h2]
  · intro h1 h2 h3
    rw [probe_msi_fail e h1 h2 h3]
  · intro h1 h2 h3 h4
    have hf : (config_search e).2 = false := by
      by_contra hc
      exact h4 (hspec.1.mp (by simpa using hc))
    rw [probe_no_config e h1 h2 (by omega) hf]
  · intro h1 h2 h3 i hi h5
    have hf : (config_search e).2 = true := hspec.1.mpr (List.getElem?_mem hi.1)
    have hii := least_config_index_unique _ _ _ (hspec.2 hf) hi
    rw [probe_no_resource e h1 h2 (by omega) hf (by rw [hii]; exact h5)]

/-- C8 on `env_msi_fail`, where `pci_enable_msi` returns -28: the routine
returns -28. -/
theorem return_code_witness : (imx_pcie_ep_probe env_msi_fail).1 = -28 :=
  (return_code env_msi_fail).2.2.2.2.1 rfl rfl (by decide)

/-- C9: a successful run makes exactly these accesses to configuration space,
in this order: a write of offset 0x54 at device function 0 of the bus of the
endpoint, then, at device function 0 of the parent bus, a write of 0x820, a
read of 0x50 and writes of 0x50, 0x828 and 0x82C; the address written comes from
the resource at the least index at which `reg-names` of the selected node holds
"config". -/
theorem config_space_accesses (e : probe_env) (hok : (imx_pcie_ep_probe e).1 = 0) :
    ∃ n i M A, selected_node e = some n ∧
      least_config_index (reg_names (some n)) i ∧
      (n.reg i).1 = 0 ∧
      M = ((n.reg i).2.start + resource_size (resource_bits e) (n.reg i).2) % 2 ^ 32 ∧
      A = (if (n.u32_props "local-addr").getD 0 ≠ 0 then
            (M &&& 0xFFFFFFF) ||| ((n.u32_props "local-addr").getD 0 &&& 0xF0000000)
          else M) ∧
      cfg_accesses (imx_pcie_ep_probe e).2.trace =
        [event.cfg_write pci_bus.bus 0 0x54 M,
          event.cfg_write pci_bus.parent 0 0x820 A,
          event.cfg_read pci_bus.parent 0 0x50,
          event.cfg_write pci_bus.parent 0 0x50 (e.cfg pci_bus.parent 0 0x50 ||| 0x10000),
          event.cfg_write pci_bus.parent 0 0x828 0x1,
          event.cfg_write pci_bus.parent 0 0x82C 0xFFFFFFFE] ∧
      cfg_writes (imx_pcie_ep_probe e).2.trace =
        [event.cfg_write pci_bus.bus 0 0x54 M,
          event.cfg_write pci_bus.parent 0 0x820 A,
          event.cfg_write pci_bus.parent 0 0x50 (e.cfg pci_bus.parent 0 0x50 ||| 0x10000),
          event.cfg_write pci_bus.parent 0 0x828 0x1,
          event.cfg_write pci_bus.parent 0 0x82C 0xFFFFFFFE] := by
  have h4 := ((probe_ret_zero_iff e).mp hok).2.2.2.1
  have hspec := config_search_spec e
  have hmem := hspec.1.mp h4
  have hidx := hspec.2 h4
  cases hsel : selected_node e with
  | none =>
    rw [hsel] at hmem
    simp [reg_names] at hmem
  | some n =>
    rw [hsel] at hidx
    obtain ⟨hr, ht⟩ := ok_trace e n (config_search e).1 hok hsel hidx
    refine ⟨n, (config_search e).1, _, _, rfl, hidx, hr, rfl, rfl, ?_, ?_⟩
    · rw [ht]
      simp [cfg_accesses]
    · rw [ht]
      simp [cfg_writes]

/-- C9 on `env_ep`: the run succeeds and makes six accesses, the address
0x01f80000 coming from the `reg` entry of index 1, the one named "config". -/
theorem config_space_accesses_witness :
    (imx_pcie_ep_probe env_ep).1 = 0 ∧
    cfg_accesses (imx_pcie_ep_probe env_ep).2.trace =
      [event.cfg_write pci_bus.bus 0 0x54 0x01f80000,
        event.cfg_write pci_bus.parent 0 0x820 0x81f80000,
        event.cfg_read pci_bus.parent 0 0x50,
        event.cfg_write pci_bus.parent 0 0x50 0x00817005,
        event.cfg_write pci_bus.parent 0 0x828 0x1,
        event.cfg_write pci_bus.parent 0 0x82C 0xFFFFFFFE] := by
  refine ⟨by decide, ?_⟩
  obtain ⟨n, i, M, A, hn, hi, -, hM, hA, hacc, -⟩ :=
    config_space_accesses env_ep (by decide)
  have hsel : selected_node env_ep = some node_ep := rfl
  have hne : n = node_ep := Option.some.inj (hn.symm.trans hsel)
  subst hne
  have hi1 : i = 1 := least_config_index_unique _ _ _ hi ⟨rfl, by decide⟩
  subst hi1
  rw [hacc, hA, hM]
  rfl

/-- C10: the node-selection loop ends on the first node of type "pci", in scan
order, that is available and on which the read of `hard-wired` fails, and on a
null handle when there is none; a node on which the read succeeds is never
selected, whatever the value read, zero included, and replacing the values read
by any others leaves the choice where it was. -/
theorem selection_ignores_value (e : probe_env) :
    selected_node e =
      (e.allnodes.filter (fun n => n.device_type = "pci")).find?
        (fun n => n.available && (n.u32_props "hard-wired").isNone) ∧
    (∀ n, selected_node e = some n →
      n ∈ e.allnodes ∧ n.device_type = "pci" ∧ n.available = true ∧
      n.u32_props "hard-wired" = none) ∧
    (∀ n v, selected_node e = some n → n.u32_props "hard-wired" ≠ some v) ∧
    (selected_node e = none ↔
      ∀ n ∈ e.allnodes, n.device_type = "pci" → n.available = true →
        ∃ v, n.u32_props "hard-wired" = some v) ∧
    (∀ f : Nat → Nat,
      selected_node { e with allnodes := e.allnodes.map (with_hard_wired f) } =
        (selected_node e).map (with_hard_wired f)) := by
  have hfind : selected_node e =
      (e.allnodes.filter (fun n => n.device_type = "pci")).find?
        (fun n => n.available && (n.u32_props "hard-wired").isNone) := by
    unfold selected_node of_find_node_by_type
    exact select_loop_eq_find _
  have hsome : ∀ n, selected_node e = some n →
      n ∈ e.allnodes ∧ n.device_type = "pci" ∧ n.available = true ∧
      n.u32_props "hard-wired" = none := by
    intro n hn
    rw [hfind] at hn
    have hp := List.find?_some hn
    have hm := List.mem_filter.mp (List.mem_of_find?_eq_some hn)
    simp only [Bool.and_eq_true, Option.isNone_iff_eq_none] at hp
    exact ⟨hm.1, by simpa using hm.2, hp.1, hp.2⟩
  refine ⟨hfind, hsome, fun n v hn hv => ?_, ?_, fun f => ?_⟩
  rotate_left
  · rw [hfind, List.find?_eq_none]
    constructor
    · intro h n hn ht ha
      have := h n (List.mem_filter.mpr ⟨hn, by simpa using ht⟩)
      cases hh : n.u32_props "hard-wired" with
      | none => simp [ha, hh] at this
      | some v => exact ⟨v, rfl⟩
    · intro h n hn
      have hm := List.mem_filter.mp hn
      by_cases ha : n.available = true
      · obtain ⟨v, hv⟩ := h n hm.1 (by simpa using hm.2) ha
        simp [hv]
      · simp [ha]
  · unfold selected_node
    rw [find_node_map, select_loop_map]
  · rw [(hsome n hn).2.2.2] at hv
    exact Option.noConfusion hv

end Imx6Ep
